import Mathlib

/-!
Verification of `src/S3Util.js`, a facade class over the AWS S3 client.

Shallow embedding: the facade is a structure holding the configured client;
each method becomes a pure function that receives, as an extra argument,
the outcome the underlying client produced for the single `send` the method
performs (`Except JsError response`).  A method returns an `OpResult`
recording the facade state after the call, the value returned or error
thrown, the console lines emitted, and the commands sent to the client.
-/

/-- Payload bytes (`Body` of an upload / download), one `Nat` per byte. -/
abbrev ByteData := List Nat

/-- An error value thrown by the underlying client.  The source only reads
`err.message` (for the `console.error` trace) and rethrows `err` itself;
`name` carries the AWS error code (e.g. `"NoSuchKey"`), and `payload`
stands for the rest of the thrown object, so that two distinct errors with
the same message remain distinguishable. -/
structure JsError where
  name : String
  message : String
  payload : Nat
deriving DecidableEq, Repr

/-- A bucket descriptor as found in the `Buckets` field of a
`ListBucketsCommand` response. -/
structure Bucket where
  Name : String
  CreationDate : Nat
deriving DecidableEq, Repr

/-- An object descriptor as found in the `Contents` field of a
`ListObjectsV2Command` response. -/
structure S3Object where
  Key : String
  Size : Nat
  LastModified : Nat
deriving DecidableEq, Repr

/-- Response of `ListBucketsCommand`.  In `@aws-sdk/client-s3` the
`Buckets` field is optional (`Buckets?: Bucket[]`), so it is an `Option`
here: the provider may omit it. -/
structure ListBucketsOutput where
  Buckets : Option (List Bucket)
deriving DecidableEq, Repr

/-- Response of `ListObjectsV2Command`.  In `@aws-sdk/client-s3` the
`Contents` field is optional (`Contents?: _Object[]`); the documented
behaviour of the S3 API is to omit it for an empty bucket. -/
structure ListObjectsV2Output where
  Contents : Option (List S3Object)
deriving DecidableEq, Repr

/-- Response of `GetObjectCommand`; the source returns `data.Body`. -/
structure GetObjectOutput where
  Body : ByteData
deriving DecidableEq, Repr

/-- `{ Bucket: bucketName }` for create / delete bucket and list objects. -/
structure BucketParams where
  Bucket : String
deriving DecidableEq, Repr

/-- `{ Bucket, Key, Body, ACL }` built by `uploadObject`. -/
structure PutObjectParams where
  Bucket : String
  Key : String
  Body : ByteData
  ACL : String
deriving DecidableEq, Repr

/-- `{ Bucket, Key }` built by `downloadObject` / `deleteObject`. -/
structure ObjectParams where
  Bucket : String
  Key : String
deriving DecidableEq, Repr

/-- `{ Bucket, Key, ACL }` built by `makeObjectPublic`. -/
structure PutObjectAclParams where
  Bucket : String
  Key : String
  ACL : String
deriving DecidableEq, Repr

/-- A request handed to `this.s3.send`, one constructor per command class
imported from `@aws-sdk/client-s3` that the source instantiates. -/
inductive Command where
  | createBucket : BucketParams → Command
  | listBuckets : Command
  | deleteBucket : BucketParams → Command
  | putObject : PutObjectParams → Command
  | listObjectsV2 : BucketParams → Command
  | getObject : ObjectParams → Command
  | deleteObject : ObjectParams → Command
  | putObjectAcl : PutObjectAclParams → Command
deriving DecidableEq, Repr

/-- One argument of a `console.log` / `console.error` call: a string, or a
structured value the source logs directly (`data.Buckets`, `data.Contents`). -/
inductive ConsoleArg where
  | str : String → ConsoleArg
  | bucketList : Option (List Bucket) → ConsoleArg
  | objectList : Option (List S3Object) → ConsoleArg
deriving DecidableEq, Repr

/-- One emitted console line: `isError` distinguishes `console.error`
from `console.log`; `args` are the arguments of the call in order. -/
structure ConsoleLine where
  isError : Bool
  args : List ConsoleArg
deriving DecidableEq, Repr

/-- Credentials object passed to the `S3Client` constructor. -/
structure Credentials where
  accessKeyId : String
  secretAccessKey : String
deriving DecidableEq, Repr

/-- The configuration the `S3Client` is constructed with; `region` is read
back by `getPublicUrl` as `this.s3.config.region`. -/
structure S3ClientConfig where
  region : String
  credentials : Credentials
deriving DecidableEq, Repr

/-- The underlying client held by the facade. -/
structure S3Client where
  config : S3ClientConfig
deriving DecidableEq, Repr

/-- The facade: its only field is the client created in the constructor. -/
structure S3Util where
  s3 : S3Client
deriving DecidableEq, Repr

/-- The constructor `new S3Util(region, accessKeyId, secretAccessKey)`:
initializes `this.s3 = new S3Client({ region, credentials: { accessKeyId,
secretAccessKey } })`. -/
def S3Util.construct (region accessKeyId secretAccessKey : String) : S3Util :=
  { s3 := { config := { region
                        credentials := { accessKeyId, secretAccessKey } } } }

/-- Everything observable about one method call: the facade state after the
call (`self`), the value returned or error thrown (`result`), the console
lines emitted (`logs`), and the commands sent to the client (`sent`). -/
structure OpResult (α : Type) where
  self : S3Util
  result : Except JsError α
  logs : List ConsoleLine
  sent : List Command

/-- `createBucket(bucketName)`: sends `CreateBucketCommand({Bucket})`, logs
success, or logs the error message and rethrows. -/
def S3Util.createBucket (self : S3Util) (bucketName : String)
    (sendResult : Except JsError Unit) : OpResult Unit :=
  let params : BucketParams := { Bucket := bucketName }
  match sendResult with
  | Except.ok _ =>
      { self := self
        result := Except.ok ()
        logs := [⟨false, [ConsoleArg.str
          ("Bucket \"" ++ bucketName ++ "\" created successfully.")]⟩]
        sent := [Command.createBucket params] }
  | Except.error err =>
      { self := self
        result := Except.error err
        logs := [⟨true, [ConsoleArg.str
          ("Error creating bucket \"" ++ bucketName ++ "\":"),
          ConsoleArg.str err.message]⟩]
        sent := [Command.createBucket params] }

/-- `listBuckets()`: sends `ListBucketsCommand({})`, logs and returns
`data.Buckets`, or logs the error message and rethrows. -/
def S3Util.listBuckets (self : S3Util)
    (sendResult : Except JsError ListBucketsOutput) :
    OpResult (Option (List Bucket)) :=
  match sendResult with
  | Except.ok data =>
      { self := self
        result := Except.ok data.Buckets
        logs := [⟨false, [ConsoleArg.str "Buckets:",
          ConsoleArg.bucketList data.Buckets]⟩]
        sent := [Command.listBuckets] }
  | Except.error err =>
      { self := self
        result := Except.error err
        logs := [⟨true, [ConsoleArg.str "Error listing buckets:",
          ConsoleArg.str err.message]⟩]
        sent := [Command.listBuckets] }

/-- `deleteBucket(bucketName)`: sends `DeleteBucketCommand({Bucket})`, logs
success, or logs the error message and rethrows. -/
def S3Util.deleteBucket (self : S3Util) (bucketName : String)
    (sendResult : Except JsError Unit) : OpResult Unit :=
  let params : BucketParams := { Bucket := bucketName }
  match sendResult with
  | Except.ok _ =>
      { self := self
        result := Except.ok ()
        logs := [⟨false, [ConsoleArg.str
          ("Bucket \"" ++ bucketName ++ "\" deleted successfully.")]⟩]
        sent := [Command.deleteBucket params] }
  | Except.error err =>
      { self := self
        result := Except.error err
        logs := [⟨true, [ConsoleArg.str
          ("Error deleting bucket \"" ++ bucketName ++ "\":"),
          ConsoleArg.str err.message]⟩]
        sent := [Command.deleteBucket params] }

/-- `uploadObject(bucketName, key, body)`: sends `PutObjectCommand` with
params `{ Bucket, Key, Body, ACL: "public-read" }` (the ACL is hard-coded),
logs success, or logs the error message and rethrows. -/
def S3Util.uploadObject (self : S3Util) (bucketName key : String)
    (body : ByteData) (sendResult : Except JsError Unit) : OpResult Unit :=
  let params : PutObjectParams :=
    { Bucket := bucketName, Key := key, Body := body, ACL := "public-read" }
  match sendResult with
  | Except.ok _ =>
      { self := self
        result := Except.ok ()
        logs := [⟨false, [ConsoleArg.str
          ("Object \"" ++ key ++ "\" uploaded to bucket \"" ++ bucketName
            ++ "\" successfully.")]⟩]
        sent := [Command.putObject params] }
  | Except.error err =>
      { self := self
        result := Except.error err
        logs := [⟨true, [ConsoleArg.str
          ("Error uploading object \"" ++ key ++ "\":"),
          ConsoleArg.str err.message]⟩]
        sent := [Command.putObject params] }

/-- `getPublicUrl(bucketName, key)`: builds
`https://BUCKET.s3.REGION.amazonaws.com/KEY` from `this.s3.config.region`
by template interpolation, logs it and returns it.  No command is sent;
the `try`/`catch` in the source surrounds pure string construction, so the
error branch is unreachable and the call always succeeds. -/
def S3Util.getPublicUrl (self : S3Util) (bucketName key : String) :
    OpResult String :=
  let publicUrl := "https://" ++ bucketName ++ ".s3."
    ++ self.s3.config.region ++ ".amazonaws.com/" ++ key
  { self := self
    result := Except.ok publicUrl
    logs := [⟨false, [ConsoleArg.str ("Public URL: " ++ publicUrl)]⟩]
    sent := [] }

/-- `listObjects(bucketName)`: sends `ListObjectsV2Command({Bucket})`, logs
and returns `data.Contents`, or logs the error message and rethrows. -/
def S3Util.listObjects (self : S3Util) (bucketName : String)
    (sendResult : Except JsError ListObjectsV2Output) :
    OpResult (Option (List S3Object)) :=
  let params : BucketParams := { Bucket := bucketName }
  match sendResult with
  | Except.ok data =>
      { self := self
        result := Except.ok data.Contents
        logs := [⟨false, [ConsoleArg.str
          ("Objects in bucket \"" ++ bucketName ++ "\":"),
          ConsoleArg.objectList data.Contents]⟩]
        sent := [Command.listObjectsV2 params] }
  | Except.error err =>
      { self := self
        result := Except.error err
        logs := [⟨true, [ConsoleArg.str
          ("Error listing objects in bucket \"" ++ bucketName ++ "\":"),
          ConsoleArg.str err.message]⟩]
        sent := [Command.listObjectsV2 params] }

/-- `downloadObject(bucketName, key)`: sends `GetObjectCommand({Bucket,
Key})`, logs success and returns `data.Body`, or logs the error message
and rethrows. -/
def S3Util.downloadObject (self : S3Util) (bucketName key : String)
    (sendResult : Except JsError GetObjectOutput) : OpResult ByteData :=
  let params : ObjectParams := { Bucket := bucketName, Key := key }
  match sendResult with
  | Except.ok data =>
      { self := self
        result := Except.ok data.Body
        logs := [⟨false, [ConsoleArg.str
          ("Object \"" ++ key ++ "\" downloaded from bucket \""
            ++ bucketName ++ "\" successfully.")]⟩]
        sent := [Command.getObject params] }
  | Except.error err =>
      { self := self
        result := Except.error err
        logs := [⟨true, [ConsoleArg.str
          ("Error downloading object \"" ++ key ++ "\":"),
          ConsoleArg.str err.message]⟩]
        sent := [Command.getObject params] }

/-- `deleteObject(bucketName, key)`: sends `DeleteObjectCommand({Bucket,
Key})`, logs success, or logs the error message and rethrows. -/
def S3Util.deleteObject (self : S3Util) (bucketName key : String)
    (sendResult : Except JsError Unit) : OpResult Unit :=
  let params : ObjectParams := { Bucket := bucketName, Key := key }
  match sendResult with
  | Except.ok _ =>
      { self := self
        result := Except.ok ()
        logs := [⟨false, [ConsoleArg.str
          ("Object \"" ++ key ++ "\" deleted from bucket \"" ++ bucketName
            ++ "\" successfully.")]⟩]
        sent := [Command.deleteObject params] }
  | Except.error err =>
      { self := self
        result := Except.error err
        logs := [⟨true, [ConsoleArg.str
          ("Error deleting object \"" ++ key ++ "\":"),
          ConsoleArg.str err.message]⟩]
        sent := [Command.deleteObject params] }

/-- `makeObjectPublic(bucketName, key)`: sends `PutObjectAclCommand` with
params `{ Bucket, Key, ACL: "public-read" }`, logs success, or logs the
error message and rethrows. -/
def S3Util.makeObjectPublic (self : S3Util) (bucketName key : String)
    (sendResult : Except JsError Unit) : OpResult Unit :=
  let params : PutObjectAclParams :=
    { Bucket := bucketName, Key := key, ACL := "public-read" }
  match sendResult with
  | Except.ok _ =>
      { self := self
        result := Except.ok ()
        logs := [⟨false, [ConsoleArg.str
          ("Object \"" ++ key ++ "\" in bucket \"" ++ bucketName
            ++ "\" is now public.")]⟩]
        sent := [Command.putObjectAcl params] }
  | Except.error err =>
      { self := self
        result := Except.error err
        logs := [⟨true, [ConsoleArg.str
          ("Error making object \"" ++ key ++ "\" public:"),
          ConsoleArg.str err.message]⟩]
        sent := [Command.putObjectAcl params] }

/-- Modelled from the spec: the external storage provider (the out-of-scope
collaborator of §1/§6), to the extent the round-trip property needs it —
§3: "An ObjectRef's payload is immutable once uploaded except via a full
overwrite (re-upload with the same key)". The store maps (bucket, key) to
the most recently put payload. -/
structure Store where
  objects : List (String × String × ByteData)
deriving DecidableEq, Repr

/-- Modelled from the spec: the provider state after a successful
`PutObjectCommand` has the payload stored under (bucket, key). -/
def Store.put (s : Store) (bucket key : String) (body : ByteData) : Store :=
  ⟨(bucket, key, body) :: s.objects⟩

/-- Modelled from the spec: the provider's response to a
`GetObjectCommand` — the most recently stored payload for (bucket, key),
or a not-found failure when nothing is stored there. -/
def Store.sendGetObject (s : Store) (bucket key : String) :
    Except JsError GetObjectOutput :=
  match s.objects.find? (fun e => e.1 == bucket && e.2.1 == key) with
  | some e => Except.ok { Body := e.2.2 }
  | none => Except.error ⟨"NoSuchKey", "The specified key does not exist.", 0⟩

/-- The uniform failure contract a method obeys when its `send` fails with
`e`: the caller receives exactly `e` (not a wrapped or different error and
not a success), exactly one request was sent (no retry), and a
`console.error` line containing `e.message` was emitted. -/
def failsVerbatim {α : Type} (r : OpResult α) (e : JsError) : Prop :=
  r.result = Except.error e ∧ r.sent.length = 1 ∧
    ∃ line ∈ r.logs, line.isError = true ∧
      ConsoleArg.str e.message ∈ line.args

/-- The spec's notion, stated from its words, that a success result of
`listObjects` is a sequence: the returned value is a present list of
object descriptors (not an absent/undefined value). -/
def objectResultIsSequence
    (r : Except JsError (Option (List S3Object))) : Prop :=
  ∃ l : List S3Object, r = Except.ok (some l)

/-- The spec's notion, stated from its words, that a success result of
`listBuckets` is a sequence of bucket descriptors. -/
def bucketResultIsSequence
    (r : Except JsError (Option (List Bucket))) : Prop :=
  ∃ l : List Bucket, r = Except.ok (some l)

/-- A sample facade used for concrete evaluations. -/
def u0 : S3Util := S3Util.construct "us-west-2" "AKIDEXAMPLE" "secret0"

/-- C1: for every bucket and key, `getPublicUrl` returns the string
`https://BUCKET.s3.REGION.amazonaws.com/KEY` where REGION is the region the
facade was constructed with; in particular, on a facade constructed with
region "us-west-2", `getPublicUrl("my-bucket", "path/file.txt")` returns
exactly "https://my-bucket.s3.us-west-2.amazonaws.com/path/file.txt". -/
theorem getPublicUrl_literal_shape :
    ∀ region accessKeyId secretAccessKey bucket key : String,
      ((S3Util.construct region accessKeyId secretAccessKey).getPublicUrl
          bucket key).result
        = Except.ok ("https://" ++ bucket ++ ".s3." ++ region
            ++ ".amazonaws.com/" ++ key) ∧
      ((S3Util.construct "us-west-2" accessKeyId
          secretAccessKey).getPublicUrl "my-bucket" "path/file.txt").result
        = Except.ok
            "https://my-bucket.s3.us-west-2.amazonaws.com/path/file.txt" := by
  intro region ak sk b k
  exact ⟨rfl, rfl⟩

/-- C2: for every bucket, key and payload (and either provider outcome),
`uploadObject` sends exactly one `PutObjectCommand` whose parameters carry
`ACL = "public-read"`; the method has no parameter to opt out. -/
theorem uploadObject_always_public_read :
    ∀ (u : S3Util) (bucket key : String) (body : ByteData)
      (sendResult : Except JsError Unit),
      (u.uploadObject bucket key body sendResult).sent
        = [Command.putObject
            { Bucket := bucket, Key := key, Body := body,
              ACL := "public-read" }] := by
  intro u b k body r
  cases r <;> rfl

/-- C3: for every operation that reaches the client and every error the
client raises, the operation emits a `console.error` trace containing the
error's message and rethrows the very same error value, after exactly one
send (no retry, no wrapping, no silent success). -/
theorem every_op_rethrows_verbatim_with_trace :
    ∀ (u : S3Util) (bucket key : String) (body : ByteData) (e : JsError),
      failsVerbatim (u.createBucket bucket (Except.error e)) e ∧
      failsVerbatim (u.listBuckets (Except.error e)) e ∧
      failsVerbatim (u.deleteBucket bucket (Except.error e)) e ∧
      failsVerbatim (u.uploadObject bucket key body (Except.error e)) e ∧
      failsVerbatim (u.listObjects bucket (Except.error e)) e ∧
      failsVerbatim (u.downloadObject bucket key (Except.error e)) e ∧
      failsVerbatim (u.deleteObject bucket key (Except.error e)) e ∧
      failsVerbatim (u.makeObjectPublic bucket key (Except.error e)) e := by
  intro u b k body e
  refine ⟨?_, ?_, ?_, ?_, ?_, ?_, ?_, ?_⟩ <;>
    simp [failsVerbatim, S3Util.createBucket, S3Util.listBuckets,
      S3Util.deleteBucket, S3Util.uploadObject, S3Util.listObjects,
      S3Util.downloadObject, S3Util.deleteObject, S3Util.makeObjectPublic]

/-- C4: `getPublicUrl` is pure in (region, bucket, key): it sends nothing
to the client, always succeeds with a string, gives equal results on
facades built with the same region (whatever the credentials), and is
idempotent under repeated calls. -/
theorem getPublicUrl_pure :
    ∀ (u : S3Util) (bucket key region ak1 sk1 ak2 sk2 : String),
      (u.getPublicUrl bucket key).sent = [] ∧
      (u.getPublicUrl bucket key).result
        = Except.ok ("https://" ++ bucket ++ ".s3." ++ u.s3.config.region
            ++ ".amazonaws.com/" ++ key) ∧
      ((S3Util.construct region ak1 sk1).getPublicUrl bucket key).result
        = ((S3Util.construct region ak2 sk2).getPublicUrl bucket key).result ∧
      ((u.getPublicUrl bucket key).self.getPublicUrl bucket key)
        = u.getPublicUrl bucket key := by
  intro u b k region a1 s1 a2 s2
  exact ⟨rfl, rfl, rfl, rfl⟩

/-- C5 (counterexample): a success response in which the provider omitted
the list (as S3 does for an empty bucket / an account with no buckets) is
passed through unchanged, so the result of `listObjects` and of
`listBuckets` is the absent value, not a sequence. -/
theorem list_empty_response_not_sequence :
    ¬ objectResultIsSequence
        ((u0.listObjects "empty-bucket"
            (Except.ok { Contents := none })).result) ∧
    ¬ bucketResultIsSequence
        ((u0.listBuckets (Except.ok { Buckets := none })).result) := by
  constructor
  · rintro ⟨l, h⟩
    simp [S3Util.listObjects, u0] at h
  · rintro ⟨l, h⟩
    simp [S3Util.listBuckets, u0] at h

/-- C5 (amended): on success, `listBuckets` returns the response's
`Buckets` field unchanged and `listObjects` the response's `Contents`
field unchanged; each, when the provider includes it, is a list of
descriptors carrying (name, creation time) resp. (key, size,
last-modified), but when the provider omits the field the operation
returns the absent value rather than a sequence. -/
theorem list_results_passthrough :
    ∀ (u : S3Util) (bucket : String) (bResp : ListBucketsOutput)
      (oResp : ListObjectsV2Output),
      (u.listBuckets (Except.ok bResp)).result = Except.ok bResp.Buckets ∧
      (u.listObjects bucket (Except.ok oResp)).result
        = Except.ok oResp.Contents := by
  intro u b bResp oResp
  exact ⟨rfl, rfl⟩

/-- C6: when the provider reports not-found for `deleteObject` on a
non-existent object, the facade surfaces exactly that failure to the
caller — it does not silently succeed — and its own state is untouched
(the facade is not crashed or corrupted). -/
theorem deleteObject_notFound_surfaced :
    ∀ (u : S3Util) (bucket key : String) (e : JsError),
      e.name = "NoSuchKey" →
      (u.deleteObject bucket key (Except.error e)).result = Except.error e ∧
      (u.deleteObject bucket key (Except.error e)).self = u ∧
      (u.deleteObject bucket key (Except.error e)).result ≠ Except.ok () := by
  intro u b k e _
  refine ⟨rfl, rfl, ?_⟩
  intro h
  exact Except.noConfusion h

/-- Witness for C6 at a concrete facade, object and not-found error. -/
theorem deleteObject_notFound_surfaced_witness :
    (u0.deleteObject "bucket" "missing-key"
        (Except.error
          ⟨"NoSuchKey", "The specified key does not exist.", 7⟩)).result
      = Except.error
          ⟨"NoSuchKey", "The specified key does not exist.", 7⟩ ∧
    (u0.deleteObject "bucket" "missing-key"
        (Except.error
          ⟨"NoSuchKey", "The specified key does not exist.", 7⟩)).self
      = u0 ∧
    (u0.deleteObject "bucket" "missing-key"
        (Except.error
          ⟨"NoSuchKey", "The specified key does not exist.", 7⟩)).result
      ≠ Except.ok () :=
  deleteObject_notFound_surfaced u0 "bucket" "missing-key"
    ⟨"NoSuchKey", "The specified key does not exist.", 7⟩ rfl

/-- C7: a successful `uploadObject(bucket, key, payload)` followed by
`downloadObject(bucket, key)` — whose `send` is answered by the provider
from the store updated by the put — returns exactly the original payload. -/
theorem upload_download_roundtrip :
    ∀ (u : S3Util) (bucket key : String) (body : ByteData) (s : Store),
      (u.uploadObject bucket key body (Except.ok ())).result
        = Except.ok () ∧
      (u.downloadObject bucket key
          ((s.put bucket key body).sendGetObject bucket key)).result
        = Except.ok body := by
  intro u b k body s
  refine ⟨rfl, ?_⟩
  simp [Store.sendGetObject, Store.put, List.find?, S3Util.downloadObject]

/-- C8: the secret access key never reaches the console: two facades that
differ only in the secret (same region, same access key id) emit identical
console output on every operation, for all inputs and all provider
responses. -/
theorem secret_noninterference_with_logs :
    ∀ (region ak sk1 sk2 bucket key : String) (body : ByteData)
      (rU : Except JsError Unit) (rLB : Except JsError ListBucketsOutput)
      (rLO : Except JsError ListObjectsV2Output)
      (rG : Except JsError GetObjectOutput),
      ((S3Util.construct region ak sk1).createBucket bucket rU).logs
        = ((S3Util.construct region ak sk2).createBucket bucket rU).logs ∧
      ((S3Util.construct region ak sk1).listBuckets rLB).logs
        = ((S3Util.construct region ak sk2).listBuckets rLB).logs ∧
      ((S3Util.construct region ak sk1).deleteBucket bucket rU).logs
        = ((S3Util.construct region ak sk2).deleteBucket bucket rU).logs ∧
      ((S3Util.construct region ak sk1).uploadObject bucket key body rU).logs
        = ((S3Util.construct region ak sk2).uploadObject bucket key body
            rU).logs ∧
      ((S3Util.construct region ak sk1).getPublicUrl bucket key).logs
        = ((S3Util.construct region ak sk2).getPublicUrl bucket key).logs ∧
      ((S3Util.construct region ak sk1).listObjects bucket rLO).logs
        = ((S3Util.construct region ak sk2).listObjects bucket rLO).logs ∧
      ((S3Util.construct region ak sk1).downloadObject bucket key rG).logs
        = ((S3Util.construct region ak sk2).downloadObject bucket key
            rG).logs ∧
      ((S3Util.construct region ak sk1).deleteObject bucket key rU).logs
        = ((S3Util.construct region ak sk2).deleteObject bucket key rU).logs ∧
      ((S3Util.construct region ak sk1).makeObjectPublic bucket key rU).logs
        = ((S3Util.construct region ak sk2).makeObjectPublic bucket key
            rU).logs := by
  intro region ak sk1 sk2 b k body rU rLB rLO rG
  refine ⟨?_, ?_, ?_, ?_, rfl, ?_, ?_, ?_, ?_⟩ <;>
    first
      | (cases rU <;> rfl)
      | (cases rLB <;> rfl)
      | (cases rLO <;> rfl)
      | (cases rG <;> rfl)

/-- C9: no method mutates the facade: for every operation, every input and
every provider response, the facade after the call is the facade before
it — the only persistent state is the client created at construction. -/
theorem operations_preserve_facade_state :
    ∀ (u : S3Util) (bucket key : String) (body : ByteData)
      (rU : Except JsError Unit) (rLB : Except JsError ListBucketsOutput)
      (rLO : Except JsError ListObjectsV2Output)
      (rG : Except JsError GetObjectOutput),
      (u.createBucket bucket rU).self = u ∧
      (u.listBuckets rLB).self = u ∧
      (u.deleteBucket bucket rU).self = u ∧
      (u.uploadObject bucket key body rU).self = u ∧
      (u.getPublicUrl bucket key).self = u ∧
      (u.listObjects bucket rLO).self = u ∧
      (u.downloadObject bucket key rG).self = u ∧
      (u.deleteObject bucket key rU).self = u ∧
      (u.makeObjectPublic bucket key rU).self = u := by
  intro u b k body rU rLB rLO rG
  refine ⟨?_, ?_, ?_, ?_, rfl, ?_, ?_, ?_, ?_⟩ <;>
    first
      | (cases rU <;> rfl)
      | (cases rLB <;> rfl)
      | (cases rLO <;> rfl)
      | (cases rG <;> rfl)

/-- C10: `getPublicUrl` validates and encodes nothing: for all strings the
bucket and key are embedded character-for-character in the template, as the
general equation and the concrete evaluations on empty strings and on
strings containing spaces, slashes, question marks and hash characters
show. -/
theorem getPublicUrl_no_validation_no_encoding :
    ∀ (u : S3Util) (bucket key : String),
      (u.getPublicUrl bucket key).result
        = Except.ok ("https://" ++ bucket ++ ".s3." ++ u.s3.config.region
            ++ ".amazonaws.com/" ++ key) ∧
      (u0.getPublicUrl "my bucket" "a/b ?c#d").result
        = Except.ok "https://my bucket.s3.us-west-2.amazonaws.com/a/b ?c#d" ∧
      (u0.getPublicUrl "" "").result
        = Except.ok "https://.s3.us-west-2.amazonaws.com/" := by
  intro u b k
  exact ⟨rfl, rfl, rfl⟩
